import Mathlib

/-!
Verification development for the tool-augmented response generation
subsystem of the course-materials RAG chatbot.

The orchestrator is a shallow embedding of `backend/ai_generator.py`
(`AIGenerator.generate_response`, `_build_system_content`,
`_make_api_call`, `_execute_tools_and_update_messages`).  The model
service is embedded as a function from the call index to the response it
produces (the code only consumes responses in call order), and the tool
manager as the interface the orchestrator uses: `execute_tool`, whose
raised exceptions are modelled as `Except.error` carrying the exception
text.  Python crashes from indexing an empty `response.content` are
modelled by an `Option` result (`none` = crash).

The concrete search tool (`backend/search_tools.py`) is not part of the
sources; it is modelled from the spec and from the behavior pinned by
its tests under `backend/tests/` (see the doc comments below).
-/

namespace RagChatbot

/-- A scalar parameter value inside a tool-call input mapping
(string / integer / Python None). -/
inductive Value where
  | str (s : String)
  | int (n : Int)
  | null
deriving DecidableEq, Repr

/-- A content block of a model response, as the orchestrator duck-types it:
`type`, `text`, `name`, `id` and `input` are the only attributes
`ai_generator.py` reads. -/
structure ContentBlock where
  type : String
  text : String
  name : String
  id : String
  input : List (String × Value)
deriving DecidableEq, Repr

/-- A model-service response: `stop_reason` plus the list of content
blocks, exactly the two attributes `generate_response` reads. -/
structure ModelResponse where
  stop_reason : String
  content : List ContentBlock
deriving DecidableEq, Repr

/-- One tool outcome dict as built in `_execute_tools_and_update_messages`:
`{"type": "tool_result", "tool_use_id": ..., "content": ...}`. -/
structure ToolResult where
  type : String
  tool_use_id : String
  content : String
deriving DecidableEq, Repr

/-- The `content` field of a conversation message: the initial user query
is plain text, the assistant echo holds the response's blocks, and the
batched outcome turn holds tool results. -/
inductive MsgContent where
  | text (s : String)
  | blocks (bs : List ContentBlock)
  | results (rs : List ToolResult)
deriving DecidableEq, Repr

/-- One conversation message `{"role": ..., "content": ...}`. -/
structure Message where
  role : String
  content : MsgContent
deriving DecidableEq, Repr

/-- A tool definition as advertised to the model service.  The
orchestrator treats the list opaquely (it only tests truthiness), so only
the identifying fields are carried. -/
structure ToolDef where
  name : String
  description : String
deriving DecidableEq, Repr

/-- The tool manager as the orchestrator uses it: `execute_tool name input`
either returns the tool's output string or raises (modelled as
`Except.error` with the exception text). -/
structure ToolManager where
  execute_tool : String → List (String × Value) → Except String String

/-- The parameters of one Claude API call actually sent by
`_make_api_call`: the message history, the system content, and the tools
parameter when it was included. -/
structure ApiCall where
  messages : List Message
  system : String
  tools : Option (List ToolDef)
deriving DecidableEq, Repr

/-- The static system prompt of `AIGenerator` (content irrelevant to the
verified properties; carried for faithfulness of `_build_system_content`). -/
def SYSTEM_PROMPT : String :=
" You are an AI assistant specialized in course materials and educational content with access to comprehensive tools for course information.

Tool Usage Guidelines:
- **Sequential Tool Use**: You can use tools across multiple rounds to gather comprehensive information
- **Maximum 2 tool rounds**: Plan your tool usage strategically within this limit
- **Course Content Search**: Use for questions about specific course content or detailed educational materials
- **Course Outline**: Use for questions about course structure, lesson lists, course overviews, or \"what is covered in [course]\"
- **Tool Combination Strategy**:
  - Round 1: Use outline tool to understand course structure, then search tool for specific content
  - Round 1: Use search tool with broad terms, then narrow down in Round 2
  - Choose the most efficient approach for each query
- Synthesize tool results into accurate, fact-based responses
- If tools yield no results, state this clearly without offering alternatives

Tool Selection Strategy:
- **Outline First**: When you need both structure AND content from a course
- **Search First**: When you need specific content but course structure is less important
- **Iterative Refinement**: Use results from Round 1 to make more targeted Round 2 queries
- **Outline queries**: Course structure, lesson breakdown, course overview, \"what lessons are in...\", \"outline of...\"
- **Content queries**: Specific topics, detailed explanations, lesson-specific content
- **General knowledge**: Answer directly without tools

When using the outline tool, always include:
- Course title and instructor
- Course link (if available)
- Complete list of lessons with numbers and titles
- Lesson links (if available)

Response Protocol:
- **General knowledge questions**: Answer using existing knowledge without tools
- **Course-specific questions**: Use appropriate tools strategically across available rounds
- **No meta-commentary**:
 - Provide direct answers only — no reasoning process, tool explanations, or question-type analysis
 - Do not mention \"based on the search results\" or \"using the outline tool\"
- When you have gathered sufficient information through tools OR reached the round limit, provide your final answer without requesting more tools

All responses must be:
1. **Brief, Concise and focused** - Get to the point quickly
2. **Educational** - Maintain instructional value
3. **Clear** - Use accessible language
4. **Example-supported** - Include relevant examples when they aid understanding
Provide only the direct answer to what was asked.
"

/-- `AIGenerator._build_system_content`: append the rendered prior
conversation when one is given (Python truthiness: an empty history
string is treated as absent). -/
def build_system_content (conversation_history : Option String) : String :=
  match conversation_history with
  | some h => if h.isEmpty then SYSTEM_PROMPT
              else SYSTEM_PROMPT ++ "\n\nPrevious conversation:\n" ++ h
  | none => SYSTEM_PROMPT

/-- `AIGenerator._make_api_call`: the tools parameter is included only
when `tools` is truthy (neither `None` nor the empty list). -/
def make_api_call (messages : List Message) (system_content : String)
    (tools : Option (List ToolDef)) : ApiCall :=
  { messages := messages, system := system_content,
    tools := match tools with
      | some ts => if ts.isEmpty then none else some ts
      | none => none }

/-- The outcome recorded for one `tool_use` block: the tool's output on
success, or the `"Tool execution failed: ..."` string when
`execute_tool` raised. -/
def tool_outcome (tm : ToolManager) (cb : ContentBlock) : ToolResult :=
  { type := "tool_result", tool_use_id := cb.id,
    content := match tm.execute_tool cb.name cb.input with
      | Except.ok r => r
      | Except.error e => "Tool execution failed: " ++ e }

/-- The batched outcome list built by the `for content_block in
response.content` loop: one outcome per `tool_use` block, in block order. -/
def tool_results (tm : ToolManager) (resp : ModelResponse) : List ToolResult :=
  resp.content.filterMap fun cb =>
    if cb.type = "tool_use" then some (tool_outcome tm cb) else none

/-- `AIGenerator._execute_tools_and_update_messages`: append the
assistant echo of the response's blocks, then (when any outcome was
collected) one user turn carrying all outcomes batched. -/
def execute_tools_and_update_messages (tm : ToolManager)
    (response : ModelResponse) (messages : List Message) : List Message :=
  let withEcho := messages ++ [{ role := "assistant", content := MsgContent.blocks response.content }]
  let results := tool_results tm response
  if results.isEmpty then withEcho
  else withEcho ++ [{ role := "user", content := MsgContent.results results }]

/-- The tool invocations attempted for a response: `(name, input)` of
each `tool_use` block, in block order. -/
def invocations_of (resp : ModelResponse) : List (String × List (String × Value)) :=
  resp.content.filterMap fun cb =>
    if cb.type = "tool_use" then some (cb.name, cb.input) else none

/-- First text of a response's content, i.e. `response.content[0].text`;
`none` models the Python `IndexError` crash on an empty content list. -/
def firstText (blocks : List ContentBlock) : Option String :=
  blocks.head?.map ContentBlock.text

/-- Observable outcome of one `generate_response` run: the returned text
(`none` = crash on empty content), the API calls issued in order, and
the tool invocations attempted in order. -/
structure GenResult where
  result : Option String
  calls : List ApiCall
  invocations : List (String × List (String × Value))
deriving Repr

/-- The `for round_num in range(max_rounds)` loop of
`AIGenerator.generate_response`, by recursion on the remaining rounds;
`k` is the index of the next model-service call.  At fuel 0 the loop is
over and the final call is made with `tools=None`. -/
def generate_loop (svc : Nat → ModelResponse) (system_content : String)
    (tools : Option (List ToolDef)) (tool_manager : Option ToolManager) :
    Nat → List Message → Nat → GenResult
  | 0, messages, k =>
      let call := make_api_call messages system_content none
      let response := svc k
      { result := firstText response.content, calls := [call], invocations := [] }
  | fuel + 1, messages, k =>
      let call := make_api_call messages system_content tools
      let response := svc k
      if response.stop_reason ≠ "tool_use" then
        { result := firstText response.content, calls := [call], invocations := [] }
      else
        match tool_manager with
        | none =>
            { result := if response.content.isEmpty then some "Tool execution not available"
                        else firstText response.content,
              calls := [call], invocations := [] }
        | some tm =>
            let updated := execute_tools_and_update_messages tm response messages
            let rest := generate_loop svc system_content tools (some tm) fuel updated (k + 1)
            { result := rest.result, calls := call :: rest.calls,
              invocations := invocations_of response ++ rest.invocations }

/-- `AIGenerator.generate_response` over a model service `svc` giving the
response to the `k`-th call.  `max_rounds` is a Python `int`; `range`
of a non-positive value is empty, hence the `Int.toNat` fuel. -/
def generate_response (svc : Nat → ModelResponse) (query : String)
    (conversation_history : Option String) (tools : Option (List ToolDef))
    (tool_manager : Option ToolManager) (max_rounds : Int) : GenResult :=
  let system_content := build_system_content conversation_history
  let messages : List Message := [{ role := "user", content := MsgContent.text query }]
  generate_loop svc system_content tools tool_manager max_rounds.toNat messages 0

/-! ## The knowledge-store side and the Content Search capability

`backend/vector_store.py` and `backend/search_tools.py` are not among
the sources; only their tests are.  `SearchResults` and the store
interface are modelled from their construction sites in
`backend/tests/conftest.py` and the spec's RetrievalResult / knowledge
store contracts; the Content Search capability is modelled from the
spec's §4.3 algorithm, with its parameter-binding behavior pinned by
`backend/tests/test_course_search_tool.py` and
`backend/tests/test_real_world_scenario.py`. -/

/-- `vector_store.SearchResults` as built by the tests: three parallel
sequences plus an optional error (the spec's `failureReason`). -/
structure SearchResults where
  documents : List String
  metadata : List (List (String × Value))
  distances : List Rat
  error : Option String
deriving DecidableEq, Repr

/-- `SearchResults.empty(error_msg)` as used by the tests: a failure
result carrying only the reason. -/
def SearchResults.emptyErr (error_msg : String) : SearchResults :=
  { documents := [], metadata := [], distances := [], error := some error_msg }

/-- The knowledge store as the Content Search capability consumes it
(spec §6): filtered search, fuzzy course-name resolution, lesson-link
lookup. -/
structure VectorStore where
  search : String → Option String → Option Int → SearchResults
  resolve_course_name : String → Option String
  get_lesson_link : String → Int → Option String

/-- Dict lookup in a string-keyed parameter mapping. -/
def lookupParam (params : List (String × Value)) (key : String) : Option Value :=
  (params.find? fun p => p.1 = key).map Prod.snd

/-- An optional string argument: present and truthy (Python: `None` and
the empty string are absent). -/
def optStringParam : Option Value → Option String
  | some (Value.str s) => if s.isEmpty then none else some s
  | _ => none

/-- An optional integer argument: present integer value, else absent. -/
def optIntParam : Option Value → Option Int
  | some (Value.int n) => some n
  | _ => none

/-- Render a parameter value where a string is consumed. -/
def Value.asString : Value → String
  | Value.str s => s
  | Value.int n => toString n
  | Value.null => "None"

/-- Modelled from the spec and pinned by the tests:
`search_tools.CourseSearchTool.execute` is missing from the sources, but
its tests fix the keyword binding of `execute(**params)` against the
fixed signature `(self, query, course_name=None, lesson_number=None)`:
an unknown key or a missing `query` escapes as a `TypeError`
(`test_execute_missing_required_query`,
`test_anthropic_parameter_variations`), modelled as `Except.error`. -/
def course_search_bind (params : List (String × Value)) :
    Except String (Value × Option Value × Option Value) :=
  if params.any (fun p =>
      ¬ (p.1 = "query" ∨ p.1 = "course_name" ∨ p.1 = "lesson_number")) then
    Except.error "TypeError: execute() got an unexpected keyword argument"
  else
    match lookupParam params "query" with
    | none => Except.error "TypeError: execute() missing 1 required positional argument: query"
    | some q => Except.ok (q, lookupParam params "course_name", lookupParam params "lesson_number")

/-- Modelled from the spec (§4.3 step 4): the successful-but-empty
message names the active course/lesson filters. -/
def no_content_msg (course_title : Option String) (lesson_number : Option Int) : String :=
  let withCourse := match course_title with
    | some c => "No relevant content found" ++ " in course " ++ c
    | none => "No relevant content found"
  let withLesson := match lesson_number with
    | some n => withCourse ++ " in lesson " ++ toString n
    | none => withCourse
  withLesson ++ "."

/-- Modelled from the spec (§4.3 step 5): per-item header with course
title and lesson number followed by the passage, items joined by a
blank-line delimiter; one citation per item with the same identification
plus the store's lesson link when available.  The tests pin the header
ingredients (course title, `Lesson n`, passage text). -/
def format_results (store : VectorStore) (results : SearchResults) :
    String × List String :=
  let rendered := (results.documents.zip results.metadata).map fun p =>
    let course_title := ((lookupParam p.2 "course_title").map Value.asString).getD "unknown"
    let lesson := optIntParam (lookupParam p.2 "lesson_number")
    let header := match lesson with
      | some n => "[" ++ course_title ++ " - Lesson " ++ toString n ++ "]"
      | none => "[" ++ course_title ++ "]"
    let citation := match lesson with
      | some n =>
        (match store.get_lesson_link course_title n with
         | some link => course_title ++ " - Lesson " ++ toString n ++ "|" ++ link
         | none => course_title ++ " - Lesson " ++ toString n)
      | none => course_title
    (header ++ "\n" ++ p.1, citation)
  (String.intercalate "\n\n" (rendered.map Prod.fst), rendered.map Prod.snd)

/-- Modelled from the spec (§4.3 steps 2-5): issue the filtered search
and interpret the result — failure reason verbatim, empty-result
message, or formatted items with their citations.  The returned list is
the citations this call records (empty on the failure and no-result
paths). -/
def course_search_run (store : VectorStore) (query : String)
    (course_title : Option String) (lesson_number : Option Int) :
    String × List String :=
  let results := store.search query course_title lesson_number
  match results.error with
  | some reason => (reason, [])
  | none =>
    if results.documents.isEmpty then (no_content_msg course_title lesson_number, [])
    else format_results store results

/-- Modelled from the spec (§4.3) on top of the test-pinned binding step:
`CourseSearchTool.execute` — bind the keyword mapping (may escape as a
`TypeError`, see `course_search_bind`), resolve the optional course name
(resolution failure short-circuits with a no-matching-course string),
then run the search. -/
def course_search_execute (store : VectorStore) (params : List (String × Value)) :
    Except String (String × List String) :=
  match course_search_bind params with
  | Except.error e => Except.error e
  | Except.ok (qv, cnv, lnv) =>
    let query := qv.asString
    let lesson_number := optIntParam lnv
    match optStringParam cnv with
    | some cn =>
      match store.resolve_course_name cn with
      | none => Except.ok ("No course found matching " ++ cn, [])
      | some resolved => Except.ok (course_search_run store query (some resolved) lesson_number)
    | none => Except.ok (course_search_run store query none lesson_number)

/-- The mocked vector store of `backend/tests/conftest.py`
(`mock_vector_store`): one MCP passage, name resolution to
"MCP Course". -/
def mock_vector_store : VectorStore :=
  { search := fun _ _ _ =>
      { documents := ["MCP is the Model Context Protocol for connecting AI assistants to external data sources."],
        metadata := [[("course_title", Value.str "MCP Course"),
                      ("lesson_number", Value.int 1),
                      ("chunk_index", Value.int 0)]],
        distances := [(1 : Rat) / 2],
        error := none },
    resolve_course_name := fun _ => some "MCP Course",
    get_lesson_link := fun _ _ => none }

/-! ## Concrete fixtures (mirroring the mocks of `backend/tests/`) -/

/-- A direct-answer model response (`stop_reason = "stop"`, one text
block), as in `test_generate_response_early_termination`. -/
def stopResponse (t : String) : ModelResponse :=
  { stop_reason := "stop",
    content := [{ type := "text", text := t, name := "", id := "", input := [] }] }

/-- A tool-requesting model response with one `tool_use` block, as in
`test_generate_response_single_round_tool_use`. -/
def toolUseResponse : ModelResponse :=
  { stop_reason := "tool_use",
    content := [{ type := "tool_use", text := "", name := "search_course_content",
                  id := "tool_123", input := [("query", Value.str "What is MCP?")] }] }

/-- A tool-requesting model response with an empty content list. -/
def toolUseEmptyResponse : ModelResponse :=
  { stop_reason := "tool_use", content := [] }

/-- A tool manager whose tools always succeed. -/
def okManager : ToolManager :=
  { execute_tool := fun _ _ => Except.ok "result" }

/-- A tool manager that always raises (`execute_tool.side_effect =
Exception("Tool failed")` of
`test_tool_parameter_extraction_and_error_handling`). -/
def failManager : ToolManager :=
  { execute_tool := fun _ _ => Except.error "Tool failed" }

/-- A sample advertised tool definition (`mock_data.EXPECTED_SEARCH_TOOL_DEF`). -/
def sampleToolDef : ToolDef :=
  { name := "search_course_content",
    description := "Search course materials with smart course name matching and lesson filtering" }

/-- A store whose search fails (`conftest.error_search_results`):
`SearchResults.empty("Database connection failed")`. -/
def errStore : VectorStore :=
  { search := fun _ _ _ => SearchResults.emptyErr "Database connection failed",
    resolve_course_name := fun _ => some "MCP Course",
    get_lesson_link := fun _ _ => none }

/-- A store whose search succeeds with zero items
(`conftest.empty_search_results`). -/
def emptyStore : VectorStore :=
  { search := fun _ _ _ => { documents := [], metadata := [], distances := [], error := none },
    resolve_course_name := fun _ => some "MCP Course",
    get_lesson_link := fun _ _ => none }

/-! ## Helper lemmas -/

/-- Every run of the round loop makes at least one model-service call. -/
theorem generate_loop_calls_pos (svc : Nat → ModelResponse) (sc : String)
    (tools : Option (List ToolDef)) (tm : Option ToolManager)
    (fuel : Nat) (msgs : List Message) (k : Nat) :
    1 ≤ (generate_loop svc sc tools tm fuel msgs k).calls.length := by
  cases fuel with
  | zero => simp [generate_loop]
  | succ n =>
    simp only [generate_loop]
    split
    · simp
    · cases tm with
      | none => simp
      | some m => simp

/-- The round loop makes at most `fuel + 1` model-service calls. -/
theorem generate_loop_calls_le (svc : Nat → ModelResponse) (sc : String)
    (tools : Option (List ToolDef)) :
    ∀ (fuel : Nat) (tm : Option ToolManager) (msgs : List Message) (k : Nat),
      (generate_loop svc sc tools tm fuel msgs k).calls.length ≤ fuel + 1 := by
  intro fuel
  induction fuel with
  | zero => intro tm msgs k; simp [generate_loop]
  | succ n ih =>
    intro tm msgs k
    simp only [generate_loop]
    split
    · simp
    · cases tm with
      | none => simp
      | some m =>
        have := ih (some m) (execute_tools_and_update_messages m (svc k) msgs) (k + 1)
        simp only [List.length_cons]
        omega

/-- A `filterMap` guarded by a decidable predicate is a `map` over the
`filter`. -/
theorem filterMap_guard_eq_map_filter {α β : Type} (p : α → Prop) [DecidablePred p]
    (f : α → β) (l : List α) :
    (l.filterMap fun a => if p a then some (f a) else none)
      = (l.filter fun a => decide (p a)).map f := by
  induction l with
  | nil => rfl
  | cons a t ih =>
    by_cases h : p a <;> simp [h, ih]

/-- When all responses before the fuel runs out request tools and a
manager is present, the loop's call list ends in a tools-withheld call,
has exactly `fuel + 1` entries, and the result is the first text of the
final response. -/
theorem generate_loop_all_tool_use (svc : Nat → ModelResponse) (sc : String)
    (tools : Option (List ToolDef)) (m : ToolManager) :
    ∀ (fuel : Nat) (msgs : List Message) (k : Nat),
      (∀ i : Nat, i < fuel → (svc (k + i)).stop_reason = "tool_use") →
      ∃ pre finalMsgs,
        (generate_loop svc sc tools (some m) fuel msgs k).calls
          = pre ++ [make_api_call finalMsgs sc none] ∧
        (generate_loop svc sc tools (some m) fuel msgs k).calls.length = fuel + 1 ∧
        (generate_loop svc sc tools (some m) fuel msgs k).result
          = firstText (svc (k + fuel)).content := by
  intro fuel
  induction fuel with
  | zero =>
    intro msgs k _
    exact ⟨[], msgs, by simp [generate_loop], by simp [generate_loop], by simp [generate_loop]⟩
  | succ n ih =>
    intro msgs k h
    have h0 : (svc k).stop_reason = "tool_use" := by
      simpa using h 0 (Nat.succ_pos n)
    obtain ⟨pre, fm, hc, hl, hr⟩ :=
      ih (execute_tools_and_update_messages m (svc k) msgs) (k + 1)
        (fun i hi => by
          have := h (i + 1) (by omega)
          have harith : k + (i + 1) = k + 1 + i := by omega
          rwa [harith] at this)
    refine ⟨make_api_call msgs sc tools :: pre, fm, ?_, ?_, ?_⟩
    · simp [generate_loop, h0, hc]
    · simp [generate_loop, h0, hl]
    · have harith : k + (n + 1) = k + 1 + n := by omega
      simp [generate_loop, h0, hr, harith]

/-! ## Claim theorems -/

/-- C1: for every `maxRounds ≥ 1` and every sequence of model-service
responses, one call to `generate_response` issues at most
`maxRounds + 1` model-service calls before returning. -/
theorem generate_response_call_budget (svc : Nat → ModelResponse) (query : String)
    (hist : Option String) (tools : Option (List ToolDef)) (tm : Option ToolManager)
    (max_rounds : Int) (hmr : 1 ≤ max_rounds) :
    ((generate_response svc query hist tools tm max_rounds).calls.length : Int)
      ≤ max_rounds + 1 := by
  have h := generate_loop_calls_le svc (build_system_content hist) tools
    max_rounds.toNat tm [{ role := "user", content := MsgContent.text query }] 0
  simp only [generate_response]
  omega

/-- Witness for C1: with a direct-answer service and `maxRounds = 2`,
the call count is within the budget `2 + 1`. -/
theorem generate_response_call_budget_witness :
    (1 : Int) ≤ 2 ∧
    ((generate_response (fun _ => stopResponse "hi") "q" none none none 2).calls.length : Int)
      ≤ 2 + 1 :=
  ⟨by decide, generate_response_call_budget (fun _ => stopResponse "hi") "q" none none none 2
    (by decide)⟩

/-- C3: with `maxRounds ≥ 1`, if the first model response does not
request tools, `generate_response` returns that response's (first) text
after exactly one model-service call, with no tool invocation. -/
theorem generate_response_early_termination (svc : Nat → ModelResponse) (query : String)
    (hist : Option String) (tools : Option (List ToolDef)) (tm : Option ToolManager)
    (max_rounds : Int) (hmr : 1 ≤ max_rounds)
    (hstop : (svc 0).stop_reason ≠ "tool_use") :
    (generate_response svc query hist tools tm max_rounds).calls.length = 1 ∧
    (generate_response svc query hist tools tm max_rounds).invocations = [] ∧
    (generate_response svc query hist tools tm max_rounds).result
      = firstText (svc 0).content := by
  have hn : max_rounds.toNat = (max_rounds.toNat - 1) + 1 := by omega
  simp only [generate_response]
  rw [hn]
  simp [generate_loop, hstop]

/-- Witness for C3: a direct-answer first response with `maxRounds = 2`
yields one call, no invocation, and the response's text. -/
theorem generate_response_early_termination_witness :
    ((1 : Int) ≤ 2 ∧ ((fun _ => stopResponse "Machine learning is a subset of AI.") 0).stop_reason ≠ "tool_use") ∧
    ((generate_response (fun _ => stopResponse "Machine learning is a subset of AI.") "What is machine learning?"
        none (some [sampleToolDef]) (some okManager) 2).calls.length = 1 ∧
     (generate_response (fun _ => stopResponse "Machine learning is a subset of AI.") "What is machine learning?"
        none (some [sampleToolDef]) (some okManager) 2).invocations = [] ∧
     (generate_response (fun _ => stopResponse "Machine learning is a subset of AI.") "What is machine learning?"
        none (some [sampleToolDef]) (some okManager) 2).result
        = firstText ((fun _ => stopResponse "Machine learning is a subset of AI.") 0).content) :=
  ⟨⟨by decide, by decide⟩,
   generate_response_early_termination (fun _ => stopResponse "Machine learning is a subset of AI.")
     "What is machine learning?" none (some [sampleToolDef]) (some okManager) 2
     (by decide) (by decide)⟩

/-- C4: when every one of the first `maxRounds` responses requests tool
use and a tool manager is configured, exactly one final model-service
call is issued with the tools parameter withheld, for `maxRounds + 1`
calls in total, and its first text is returned. -/
theorem generate_response_forced_final (svc : Nat → ModelResponse) (query : String)
    (hist : Option String) (tools : Option (List ToolDef)) (m : ToolManager)
    (max_rounds : Int)
    (hall : ∀ i : Nat, (i : Int) < max_rounds → (svc i).stop_reason = "tool_use") :
    (generate_response svc query hist tools (some m) max_rounds).calls.length
      = max_rounds.toNat + 1 ∧
    ((generate_response svc query hist tools (some m) max_rounds).calls.getLast?).map ApiCall.tools
      = some none ∧
    (generate_response svc query hist tools (some m) max_rounds).result
      = firstText (svc max_rounds.toNat).content := by
  obtain ⟨pre, fm, hc, hl, hr⟩ :=
    generate_loop_all_tool_use svc (build_system_content hist) tools m
      max_rounds.toNat [{ role := "user", content := MsgContent.text query }] 0
      (fun i hi => by
        have harith : 0 + i = i := by omega
        rw [harith]
        exact hall i (by omega))
  refine ⟨?_, ?_, ?_⟩
  · simpa [generate_response] using hl
  · have hcr : (generate_response svc query hist tools (some m) max_rounds).calls
        = pre ++ [make_api_call fm (build_system_content hist) none] := by
      simpa [generate_response] using hc
    rw [hcr, List.getLast?_concat]
    simp [make_api_call]
  · simpa [generate_response] using hr

/-- Witness for C4: a service that always requests tools, with a
manager and `maxRounds = 2`, gives three calls, a tools-withheld final
call, and the final response's first text. -/
theorem generate_response_forced_final_witness :
    (∀ i : Nat, (i : Int) < 2 → ((fun _ => toolUseResponse) i).stop_reason = "tool_use") ∧
    ((generate_response (fun _ => toolUseResponse) "q" none (some [sampleToolDef])
        (some okManager) 2).calls.length = (2 : Int).toNat + 1 ∧
     ((generate_response (fun _ => toolUseResponse) "q" none (some [sampleToolDef])
        (some okManager) 2).calls.getLast?).map ApiCall.tools = some none ∧
     (generate_response (fun _ => toolUseResponse) "q" none (some [sampleToolDef])
        (some okManager) 2).result = firstText ((fun _ => toolUseResponse) (2 : Int).toNat).content) :=
  ⟨fun _ _ => rfl,
   generate_response_forced_final (fun _ => toolUseResponse) "q" none (some [sampleToolDef])
     okManager 2 (fun _ _ => rfl)⟩

/-- C10: for a non-positive `max_rounds`, the tool-calling loop is
skipped: exactly one model-service call, with the tools parameter
withheld, no tool invocation, and that response's first text returned,
whatever tools list and manager were supplied. -/
theorem generate_response_nonpositive_rounds (svc : Nat → ModelResponse) (query : String)
    (hist : Option String) (tools : Option (List ToolDef)) (tm : Option ToolManager)
    (max_rounds : Int) (hmr : max_rounds ≤ 0) :
    (generate_response svc query hist tools tm max_rounds).calls.length = 1 ∧
    ((generate_response svc query hist tools tm max_rounds).calls.head?).map ApiCall.tools
      = some none ∧
    (generate_response svc query hist tools tm max_rounds).invocations = [] ∧
    (generate_response svc query hist tools tm max_rounds).result
      = firstText (svc 0).content := by
  have hn : max_rounds.toNat = 0 := by omega
  simp [generate_response, hn, generate_loop, make_api_call]

/-- Witness for C10: `max_rounds = 0` with a non-empty tools list, a
manager, and a tool-requesting service still makes one tools-withheld
call and returns its first text. -/
theorem generate_response_nonpositive_rounds_witness :
    (0 : Int) ≤ 0 ∧
    ((generate_response (fun _ => stopResponse "direct") "q" none (some [sampleToolDef])
        (some okManager) 0).calls.length = 1 ∧
     ((generate_response (fun _ => stopResponse "direct") "q" none (some [sampleToolDef])
        (some okManager) 0).calls.head?).map ApiCall.tools = some none ∧
     (generate_response (fun _ => stopResponse "direct") "q" none (some [sampleToolDef])
        (some okManager) 0).invocations = [] ∧
     (generate_response (fun _ => stopResponse "direct") "q" none (some [sampleToolDef])
        (some okManager) 0).result
        = firstText ((fun _ => stopResponse "direct") 0).content) :=
  ⟨by decide,
   generate_response_nonpositive_rounds (fun _ => stopResponse "direct") "q" none
     (some [sampleToolDef]) (some okManager) 0 (by decide)⟩

/-- C2: a raising tool does not abort the round — the orchestrator's
tool-execution step records the `"Tool execution failed: ..."` outcome
for the failing request (keyed by its id) inside the batched user turn,
and the round loop goes on to a further model-service call. -/
theorem tool_failure_absorbed (tm : ToolManager) (resp : ModelResponse)
    (msgs : List Message) (b : ContentBlock) (e : String)
    (hb : b ∈ resp.content) (ht : b.type = "tool_use")
    (he : tm.execute_tool b.name b.input = Except.error e) :
    (tool_outcome tm b).content = "Tool execution failed: " ++ e ∧
    ({ type := "tool_result", tool_use_id := b.id,
       content := "Tool execution failed: " ++ e } : ToolResult) ∈ tool_results tm resp ∧
    execute_tools_and_update_messages tm resp msgs
      = msgs ++ [{ role := "assistant", content := MsgContent.blocks resp.content },
                 { role := "user", content := MsgContent.results (tool_results tm resp) }] ∧
    (∀ (svc : Nat → ModelResponse) (query : String) (hist : Option String)
       (tools : Option (List ToolDef)) (max_rounds : Int), 1 ≤ max_rounds →
       (svc 0).stop_reason = "tool_use" →
       2 ≤ (generate_response svc query hist tools (some tm) max_rounds).calls.length) := by
  have hout : (tool_outcome tm b).content = "Tool execution failed: " ++ e := by
    simp [tool_outcome, he]
  have hmem : ToolResult.mk "tool_result" b.id ("Tool execution failed: " ++ e)
      ∈ tool_results tm resp := by
    refine List.mem_filterMap.2 ⟨b, hb, ?_⟩
    simp [ht, tool_outcome, he]
  refine ⟨hout, hmem, ?_, ?_⟩
  · have hne : ¬ (tool_results tm resp).isEmpty := by
      cases hres : tool_results tm resp with
      | nil => rw [hres] at hmem; simp at hmem
      | cons a t => simp
    simp [execute_tools_and_update_messages, hne]
  · intro svc query hist tools max_rounds hmr hstop
    have hn : max_rounds.toNat = (max_rounds.toNat - 1) + 1 := by omega
    simp only [generate_response]
    rw [hn]
    simp only [generate_loop, hstop]
    simp
    exact generate_loop_calls_pos svc (build_system_content hist) tools (some tm)
      (max_rounds.toNat - 1) _ 1

/-- Witness for C2: the failing manager of
`test_tool_parameter_extraction_and_error_handling` on the sample
tool-use response. -/
theorem tool_failure_absorbed_witness :
    (toolUseResponse.content.get ⟨0, by decide⟩ ∈ toolUseResponse.content ∧
     (toolUseResponse.content.get ⟨0, by decide⟩).type = "tool_use" ∧
     failManager.execute_tool (toolUseResponse.content.get ⟨0, by decide⟩).name
       (toolUseResponse.content.get ⟨0, by decide⟩).input = Except.error "Tool failed") ∧
    ((tool_outcome failManager (toolUseResponse.content.get ⟨0, by decide⟩)).content
       = "Tool execution failed: " ++ "Tool failed" ∧
     ({ type := "tool_result",
        tool_use_id := (toolUseResponse.content.get ⟨0, by decide⟩).id,
        content := "Tool execution failed: " ++ "Tool failed" } : ToolResult)
       ∈ tool_results failManager toolUseResponse ∧
     execute_tools_and_update_messages failManager toolUseResponse
        [{ role := "user", content := MsgContent.text "test" }]
       = [{ role := "user", content := MsgContent.text "test" }]
         ++ [{ role := "assistant", content := MsgContent.blocks toolUseResponse.content },
             { role := "user",
               content := MsgContent.results (tool_results failManager toolUseResponse) }] ∧
     (∀ (svc : Nat → ModelResponse) (query : String) (hist : Option String)
        (tools : Option (List ToolDef)) (max_rounds : Int), 1 ≤ max_rounds →
        (svc 0).stop_reason = "tool_use" →
        2 ≤ (generate_response svc query hist tools (some failManager) max_rounds).calls.length)) :=
  ⟨⟨by decide, by decide, rfl⟩,
   tool_failure_absorbed failManager toolUseResponse
     [{ role := "user", content := MsgContent.text "test" }]
     (toolUseResponse.content.get ⟨0, by decide⟩) "Tool failed"
     (by decide) (by decide) rfl⟩

/-- C5: a tool-requesting response extends the conversation by exactly
one assistant turn echoing its blocks and one user turn batching all
outcomes; the outcomes are the in-order map of the tool-use blocks
(strictly sequential execution in request order) and each outcome keeps
its request's id. -/
theorem tool_round_message_shape (tm : ToolManager) (resp : ModelResponse)
    (msgs : List Message)
    (hreq : ∃ b ∈ resp.content, b.type = "tool_use") :
    execute_tools_and_update_messages tm resp msgs
      = msgs ++ [{ role := "assistant", content := MsgContent.blocks resp.content },
                 { role := "user", content := MsgContent.results (tool_results tm resp) }] ∧
    tool_results tm resp
      = ((resp.content.filter fun b => decide (b.type = "tool_use")).map (tool_outcome tm)) ∧
    (∀ b : ContentBlock, (tool_outcome tm b).tool_use_id = b.id) := by
  obtain ⟨b, hb, ht⟩ := hreq
  have hmem : tool_outcome tm b ∈ tool_results tm resp := by
    refine List.mem_filterMap.2 ⟨b, hb, ?_⟩
    simp [ht]
  have hne : ¬ (tool_results tm resp).isEmpty := by
    cases hres : tool_results tm resp with
    | nil => rw [hres] at hmem; simp at hmem
    | cons a t => simp
  refine ⟨?_, ?_, fun _ => rfl⟩
  · simp [execute_tools_and_update_messages, hne]
  · exact filterMap_guard_eq_map_filter (fun cb => cb.type = "tool_use") (tool_outcome tm)
      resp.content

/-- Witness for C5: the sample single-block tool-use response under the
always-succeeding manager. -/
theorem tool_round_message_shape_witness :
    (∃ b ∈ toolUseResponse.content, b.type = "tool_use") ∧
    (execute_tools_and_update_messages okManager toolUseResponse
        [{ role := "user", content := MsgContent.text "q" }]
      = [{ role := "user", content := MsgContent.text "q" }]
        ++ [{ role := "assistant", content := MsgContent.blocks toolUseResponse.content },
            { role := "user",
              content := MsgContent.results (tool_results okManager toolUseResponse) }] ∧
     tool_results okManager toolUseResponse
      = ((toolUseResponse.content.filter fun b => decide (b.type = "tool_use")).map
          (tool_outcome okManager)) ∧
     (∀ b : ContentBlock, (tool_outcome okManager b).tool_use_id = b.id)) :=
  ⟨⟨toolUseResponse.content.get ⟨0, by decide⟩, by decide, by decide⟩,
   tool_round_message_shape okManager toolUseResponse
     [{ role := "user", content := MsgContent.text "q" }]
     ⟨toolUseResponse.content.get ⟨0, by decide⟩, by decide, by decide⟩⟩

/-- C9 counterexample: with no tool manager and a tool-requesting
response with no text, `generate_response` returns the code's
placeholder `"Tool execution not available"`, which is not the claimed
string `"tool execution not available"`. -/
theorem no_manager_placeholder_counterexample :
    (generate_response (fun _ => toolUseEmptyResponse) "q" none none none 2).result
      = some "Tool execution not available" ∧
    (generate_response (fun _ => toolUseEmptyResponse) "q" none none none 2).result
      ≠ some "tool execution not available" := by
  constructor
  · rfl
  · decide

/-- C9 (amended): with no tool manager configured and a first response
requesting tool use, `generate_response` performs no invocation, makes
exactly one model-service call, and returns the response's raw first
text — or the placeholder `"Tool execution not available"` when the
content is empty. -/
theorem no_manager_returns_text (svc : Nat → ModelResponse) (query : String)
    (hist : Option String) (tools : Option (List ToolDef)) (max_rounds : Int)
    (hmr : 1 ≤ max_rounds) (ht : (svc 0).stop_reason = "tool_use") :
    (generate_response svc query hist tools none max_rounds).invocations = [] ∧
    (generate_response svc query hist tools none max_rounds).calls.length = 1 ∧
    (generate_response svc query hist tools none max_rounds).result
      = (if (svc 0).content.isEmpty then some "Tool execution not available"
         else firstText (svc 0).content) := by
  have hn : max_rounds.toNat = (max_rounds.toNat - 1) + 1 := by omega
  simp only [generate_response]
  rw [hn]
  simp [generate_loop, ht]

/-- Witness for C9 (amended): a tool-use response with a leading text
block and no manager yields that raw text in one call. -/
theorem no_manager_returns_text_witness :
    ((1 : Int) ≤ 2 ∧ ((fun _ => toolUseResponse) 0).stop_reason = "tool_use") ∧
    ((generate_response (fun _ => toolUseResponse) "q" none (some [sampleToolDef]) none 2).invocations = [] ∧
     (generate_response (fun _ => toolUseResponse) "q" none (some [sampleToolDef]) none 2).calls.length = 1 ∧
     (generate_response (fun _ => toolUseResponse) "q" none (some [sampleToolDef]) none 2).result
       = (if ((fun _ => toolUseResponse) 0).content.isEmpty
          then some "Tool execution not available"
          else firstText ((fun _ => toolUseResponse) 0).content)) :=
  ⟨⟨by decide, by decide⟩,
   no_manager_returns_text (fun _ => toolUseResponse) "q" none (some [sampleToolDef]) 2
     (by decide) (by decide)⟩

/-- C7: a knowledge-store result carrying a failure reason makes the
Content Search capability return exactly that reason string, without
raising, and record no citations. -/
theorem store_failure_surfaced (store : VectorStore) (q reason : String)
    (herr : (store.search q none none).error = some reason) :
    course_search_execute store [("query", Value.str q)]
      = Except.ok (reason, []) := by
  simp [course_search_execute, course_search_bind, lookupParam, optStringParam, optIntParam,
        Value.asString, course_search_run, herr]

/-- Witness for C7: the failing store of `conftest.error_search_results`
(`"Database connection failed"`). -/
theorem store_failure_surfaced_witness :
    (errStore.search "test query" none none).error = some "Database connection failed" ∧
    course_search_execute errStore [("query", Value.str "test query")]
      = Except.ok ("Database connection failed", []) :=
  ⟨rfl, store_failure_surfaced errStore "test query" "Database connection failed" rfl⟩

/-- C8: a successful-but-empty knowledge-store result makes the Content
Search capability return the no-relevant-content message naming the
active course and lesson filters, and record no citations. -/
theorem empty_results_message (store : VectorStore) (q cn cres : String) (ln : Int)
    (hcn : cn.isEmpty = false)
    (hres : store.resolve_course_name cn = some cres)
    (herr : (store.search q (some cres) (some ln)).error = none)
    (hdocs : (store.search q (some cres) (some ln)).documents = []) :
    course_search_execute store
      [("query", Value.str q), ("course_name", Value.str cn), ("lesson_number", Value.int ln)]
      = Except.ok ("No relevant content found" ++ " in course " ++ cres ++ " in lesson "
          ++ toString ln ++ ".", []) := by
  simp [course_search_execute, course_search_bind, lookupParam, optStringParam, optIntParam,
        Value.asString, course_search_run, no_content_msg, hcn, hres, herr, hdocs]

/-- Witness for C8: the empty store of `conftest.empty_search_results`
under both filters. -/
theorem empty_results_message_witness :
    ("MCP".isEmpty = false ∧
     emptyStore.resolve_course_name "MCP" = some "MCP Course" ∧
     (emptyStore.search "nonexistent content" (some "MCP Course") (some 2)).error = none ∧
     (emptyStore.search "nonexistent content" (some "MCP Course") (some 2)).documents = []) ∧
    course_search_execute emptyStore
      [("query", Value.str "nonexistent content"), ("course_name", Value.str "MCP"),
       ("lesson_number", Value.int 2)]
      = Except.ok ("No relevant content found" ++ " in course " ++ "MCP Course" ++ " in lesson "
          ++ toString (2 : Int) ++ ".", []) :=
  ⟨⟨rfl, rfl, rfl, rfl⟩,
   empty_results_message emptyStore "nonexistent content" "MCP" "MCP Course" 2 rfl rfl rfl rfl⟩

/-- C6: the Content Search capability's execute entry point does NOT
absorb a missing or unexpected key into a typed validation failure: the
fixed-arity binding pinned by the tests lets a `TypeError` escape, both
when `query` is missing and when an extra key is supplied. -/
theorem fixed_arity_execute_crashes :
    course_search_execute mock_vector_store
      [("course_name", Value.str "MCP"), ("lesson_number", Value.int 1)]
      = Except.error "TypeError: execute() missing 1 required positional argument: query" ∧
    course_search_execute mock_vector_store
      [("query", Value.str "What is MCP?"), ("course_name", Value.str "MCP"),
       ("extra_param", Value.str "unexpected")]
      = Except.error "TypeError: execute() got an unexpected keyword argument" :=
  ⟨rfl, rfl⟩

end RagChatbot
